import Mathlib

/-!
Shallow embedding of the invoice reconciliation pipeline (src/app.py).

Amount cells are modelled as `Option ℚ`: `some q` for a numeric cell, `none`
for a non-numeric or blank cell; the coercion `pd.to_numeric(..).fillna(0)`
becomes `Option.getD 0`.  Missing values produced by the outer merge (pandas
NaN) are modelled as `none`, and the NaN comparison semantics of the status
rules (NaN == 0 and NaN <= t are both false) are made explicit.
-/

/-- The Python str.lower() (pandas .str.lower()): lowercase each character;
like Char.toLower this acts on the basic latin letters. -/
def strLower (s : String) : String :=
  String.mk (s.toList.map Char.toLower)

/-- The pandas .str.strip(): drop leading and trailing whitespace. -/
def strTrim (s : String) : String :=
  String.mk (((s.toList.dropWhile Char.isWhitespace).reverse.dropWhile
    Char.isWhitespace).reverse)

/-- The Python abs: negate a negative value, keep the rest. -/
def absQ (x : ℚ) : ℚ :=
  if x < 0 then -x else x

/-- True when the keyword list of characters occurs at the head of the text. -/
def headMatch : List Char → List Char → Bool
  | [], _ => true
  | _ :: _, [] => false
  | c :: cs, d :: ds => c == d && headMatch cs ds

/-- True when the keyword occurs contiguously anywhere in the text
(the Python substring test kw in cell). -/
def subMatch (kw : List Char) : List Char → Bool
  | [] => headMatch kw []
  | s@(_ :: rest) => headMatch kw s || subMatch kw rest

/-- The Python membership test kw in s on strings. -/
def strContains (s kw : String) : Bool :=
  subMatch kw.toList s.toList

/-- The loop body test of find_header_row: every required keyword occurs in
at least one lowercased cell of the row. -/
def rowQualifies (row : List String) (kws : List String) : Bool :=
  kws.all (fun kw => row.any (fun cell => strContains (strLower cell) kw))

/-- find_header_row (src/app.py lines 39 to 46): scan rows top-down and
return the index of the first row in which every required keyword appears
in some cell; None when no row qualifies. -/
def find_header_row : List (List String) → List String → Option Nat
  | [], _ => none
  | row :: rest, kws =>
    if rowQualifies row kws then some 0
    else (find_header_row rest kws).map (· + 1)

/-- The terminal error conditions of the script (st.error followed by
st.stop). -/
inductive ReconError where
  | headerNotFound
  | columnNotFound
  | unrecognizedFormat
deriving DecidableEq

/-- Seller header detection stage (src/app.py lines 52 to 56): keywords
"no" and "amount"; on failure the script stops with an error and produces
no result. -/
def seller_header_stage (raw : List (List String)) : Except ReconError Nat :=
  match find_header_row raw ["no", "amount"] with
  | some i => .ok i
  | none => .error .headerNotFound

/-- Vendor header detection stage (src/app.py lines 85 to 99): first the
keywords "voucher" and "type", then the alternate pair "vch" and "type";
on failure the script stops with an error. -/
def vendor_header_stage (raw : List (List String)) : Except ReconError Nat :=
  match find_header_row raw ["voucher", "type"] with
  | some i => .ok i
  | none =>
    match find_header_row raw ["vch", "type"] with
    | some i => .ok i
    | none => .error .headerNotFound

/-- Seller required-column check (src/app.py lines 59 to 64): after
stripping whitespace from the column names, the columns named exactly
"No." and "Amount" must both be present. -/
def seller_column_stage (cols : List String) : Except ReconError Unit :=
  let cs := cols.map strTrim
  if cs.contains "No." && cs.contains "Amount" then .ok () else .error .columnNotFound

/-- The two recognized vendor file formats (src/app.py lines 104 to 173). -/
inductive VendorFormat where
  | format1
  | format2
deriving DecidableEq

/-- Vendor format detection (src/app.py lines 107 to 173): Format 1 when the
stripped column names include exactly "Voucher Type", "Voucher No." and
"Gross Total"; otherwise Format 2 when they include exactly "Vch Type",
"Vch No.", "Debit" and "Credit"; otherwise the script stops with an
unrecognized-format error. -/
def detect_vendor_format (cols : List String) : Except ReconError VendorFormat :=
  let cs := cols.map strTrim
  if cs.contains "Voucher Type" && cs.contains "Voucher No." && cs.contains "Gross Total" then
    .ok .format1
  else if cs.contains "Vch Type" && cs.contains "Vch No." && cs.contains "Debit" &&
      cs.contains "Credit" then
    .ok .format2
  else
    .error .unrecognizedFormat

/-- A raw seller ledger row after the header row is consumed.  The sheet may
carry a voucher-type cell among its columns; the seller pipeline selects only
the "No." and "Amount" columns and never reads the voucher type. -/
structure SellerRow where
  voucherType : String
  no : String
  amount : Option ℚ
deriving DecidableEq

/-- Seller processing (src/app.py lines 58 to 78): rename "No." and
"Amount", coerce the amount with fillna(0), select the two columns.  Every
row passes through; there is no voucher-type filter and no grouping. -/
def seller_process (rows : List SellerRow) : List (String × ℚ) :=
  rows.map (fun r => (r.no, r.amount.getD 0))

/-- A vendor ledger row in Format 1 (Voucher Type / Voucher No. / Gross
Total). -/
structure VendorRow1 where
  voucherType : String
  voucherNo : String
  grossTotal : Option ℚ
deriving DecidableEq

/-- Vendor Format 1 processing (src/app.py lines 113 to 128): keep the rows
whose lowercased voucher type equals "purchase" exactly, coerce Gross Total
with fillna(0), rename, select.  No grouping is performed. -/
def vendor_process_format1 (rows : List VendorRow1) : List (String × ℚ) :=
  (rows.filter (fun r => strLower r.voucherType == "purchase")).map
    (fun r => (r.voucherNo, r.grossTotal.getD 0))

/-- A vendor ledger row in Format 2 (Vch Type / Vch No. / Debit / Credit). -/
structure VendorRow2 where
  vchType : String
  vchNo : String
  debit : Option ℚ
  credit : Option ℚ
deriving DecidableEq

/-- The Format 2 purchase filter (src/app.py lines 140 to 142): lowercased
voucher type equals "purchase" exactly. -/
def purchaseRows2 (rows : List VendorRow2) : List VendorRow2 :=
  rows.filter (fun r => strLower r.vchType == "purchase")

/-- Sum of the coerced debit cells of the rows carrying the given invoice
number. -/
def debitSum (rows : List VendorRow2) (k : String) : ℚ :=
  ((rows.filter (fun r => r.vchNo == k)).map (fun r => r.debit.getD 0)).sum

/-- Sum of the coerced credit cells of the rows carrying the given invoice
number. -/
def creditSum (rows : List VendorRow2) (k : String) : ℚ :=
  ((rows.filter (fun r => r.vchNo == k)).map (fun r => r.credit.getD 0)).sum

/-- Distinct keys in first-occurrence order, with an accumulator of keys
already emitted. -/
def dedupFirstAux : List String → List String → List String
  | _, [] => []
  | seen, k :: rest =>
    if k ∈ seen then dedupFirstAux seen rest
    else k :: dedupFirstAux (k :: seen) rest

/-- Vendor Format 2 processing (src/app.py lines 140 to 168): filter to
purchase vouchers, group by Vch No., sum Debit and Credit per group, and set
the invoice amount to the debit sum minus the credit sum.  The pandas
groupby emits group keys in sorted order; here they appear in
first-occurrence order, which changes only the row order of the summary,
not the per-key sums. -/
def vendor_process_format2 (rows : List VendorRow2) : List (String × ℚ) :=
  let f := purchaseRows2 rows
  (dedupFirstAux [] (f.map (fun r => r.vchNo))).map
    (fun k => (k, debitSum f k - creditSum f k))

/-- A row of the outer merge (src/app.py lines 179 to 185); a side absent
from the join carries none (pandas NaN) in its identifier and amount
columns. -/
structure ReconRow where
  sellerNo : Option String
  sellerAmount : Option ℚ
  vendorNo : Option String
  vendorAmount : Option ℚ
deriving DecidableEq

/-- The outer merge of the two summaries on invoice number (src/app.py
lines 179 to 185): every seller row paired with each vendor row sharing its
key (or with nulls when none does), followed by the vendor rows whose key
no seller row carries. -/
def mergeOuter (seller vendor : List (String × ℚ)) : List ReconRow :=
  (seller.bind (fun s =>
    let ms := vendor.filter (fun v => v.1 == s.1)
    if ms.isEmpty then [⟨some s.1, some s.2, none, none⟩]
    else ms.map (fun v => ⟨some s.1, some s.2, some v.1, some v.2⟩))) ++
  (vendor.filter (fun v => !(seller.any (fun s => s.1 == v.1)))).map
    (fun v => ⟨none, none, some v.1, some v.2⟩)

/-- Amount_Difference (src/app.py lines 187 to 190): the absolute value of
the difference of the two amounts; NaN (none) when either side is absent,
since NaN propagates through subtraction and abs. -/
def Amount_Difference (r : ReconRow) : Option ℚ :=
  match r.sellerAmount, r.vendorAmount with
  | some a, some b => some (absQ (a - b))
  | _, _ => none

/-- The pandas comparison NaN == 0 is false; a present value compares
normally. -/
def nanEqZero (d : Option ℚ) : Bool :=
  match d with
  | some a => a == 0
  | none => false

/-- The pandas comparison NaN <= t is false; a present value compares
normally. -/
def nanLe (d : Option ℚ) (t : ℚ) : Bool :=
  match d with
  | some a => decide (a ≤ t)
  | none => false

/-- get_status (src/app.py lines 195 to 205): first-matching rule, in
order: seller identifier absent, vendor identifier absent, difference equal
to zero, difference at most the threshold, otherwise a mismatch. -/
def get_status (threshold : ℚ) (r : ReconRow) : String :=
  if r.sellerNo.isNone then "Missing in Seller Books"
  else if r.vendorNo.isNone then "Missing in Vendor Books"
  else if nanEqZero (Amount_Difference r) then "Matched"
  else if nanLe (Amount_Difference r) threshold then "Within Threshold"
  else "Amount Mismatch"

/-- A row of the final report (src/app.py lines 207 to 219). -/
structure FinalRow where
  sellerNo : Option String
  sellerAmount : Option ℚ
  vendorNo : Option String
  vendorAmount : Option ℚ
  amountDifference : Option ℚ
  status : String
deriving DecidableEq

/-- Attach the difference and status columns to a merged row. -/
def classify (threshold : ℚ) (r : ReconRow) : FinalRow :=
  ⟨r.sellerNo, r.sellerAmount, r.vendorNo, r.vendorAmount,
    Amount_Difference r, get_status threshold r⟩

/-- The merge-and-classify step (src/app.py lines 179 to 219): outer merge
of the two summaries, then difference and status per row. -/
def reconcile (seller vendor : List (String × ℚ)) (threshold : ℚ) : List FinalRow :=
  (mergeOuter seller vendor).map (classify threshold)

/-- total_difference (src/app.py line 237): the pandas column sum, which
skips NaN cells, so an absent difference contributes zero. -/
def total_difference (report : List FinalRow) : ℚ :=
  (report.map (fun r => r.amountDifference.getD 0)).sum

/-- Modelled from the spec: the role-resolution mechanism the spec
describes (section 4.1), absent from src/app.py, which uses exact
column-name checks instead.  Scan the keywords in priority order; for each,
the first column whose lowercased name contains the keyword wins. -/
def resolve_role_spec (cols : List String) : List String → Option String
  | [] => none
  | kw :: rest =>
    match cols.find? (fun c => strContains (strLower c) kw) with
    | some c => some c
    | none => resolve_role_spec cols rest

/-! Helper lemmas. -/

theorem absQ_nonneg (x : ℚ) : 0 ≤ absQ x := by
  unfold absQ
  split
  · linarith
  · linarith

theorem Amount_Difference_eq_none (r : ReconRow)
    (h : r.sellerAmount = none ∨ r.vendorAmount = none) :
    Amount_Difference r = none := by
  unfold Amount_Difference
  rcases h with h | h <;> rw [h] <;> cases r.sellerAmount <;> cases r.vendorAmount <;> rfl

theorem Amount_Difference_eq_some (r : ReconRow) (a b : ℚ)
    (ha : r.sellerAmount = some a) (hb : r.vendorAmount = some b) :
    Amount_Difference r = some (absQ (a - b)) := by
  unfold Amount_Difference
  rw [ha, hb]

theorem Amount_Difference_nonneg (r : ReconRow) (d : ℚ)
    (h : Amount_Difference r = some d) : 0 ≤ d := by
  unfold Amount_Difference at h
  rcases hs : r.sellerAmount with _ | a <;> rcases hv : r.vendorAmount with _ | b <;>
    rw [hs, hv] at h <;> simp at h
  rw [← h]
  exact absQ_nonneg _

theorem mergeOuter_inv (s v : List (String × ℚ)) (r : ReconRow)
    (hr : r ∈ mergeOuter s v) :
    (r.sellerNo = none ↔ r.sellerAmount = none) ∧
    (r.vendorNo = none ↔ r.vendorAmount = none) := by
  unfold mergeOuter at hr
  rw [List.mem_append] at hr
  rcases hr with hr | hr
  · rw [List.mem_bind] at hr
    obtain ⟨p, _, hp⟩ := hr
    by_cases he : (v.filter (fun q => q.1 == p.1)).isEmpty
    · simp only [he, if_pos] at hp
      simp only [List.mem_singleton] at hp
      subst hp
      simp
    · simp only [he, if_neg, Bool.false_eq_true, not_false_iff] at hp
      rw [List.mem_map] at hp
      obtain ⟨q, _, hq⟩ := hp
      subst hq
      simp
  · rw [List.mem_map] at hr
    obtain ⟨q, _, hq⟩ := hr
    subst hq
    simp

theorem dedupFirstAux_subset (l seen : List String) (k : String)
    (h : k ∈ dedupFirstAux seen l) : k ∈ l := by
  induction l generalizing seen with
  | nil => simp [dedupFirstAux] at h
  | cons a rest ih =>
    unfold dedupFirstAux at h
    split at h
    · exact List.mem_cons_of_mem a (ih _ h)
    · rcases List.mem_cons.mp h with h | h
      · exact h ▸ List.mem_cons_self a rest
      · exact List.mem_cons_of_mem a (ih _ h)

theorem find_header_row_some_spec (raw : List (List String)) (kws : List String)
    (i : Nat) (h : find_header_row raw kws = some i) :
    ∃ row, raw[i]? = some row ∧ rowQualifies row kws = true ∧
      ∀ j rowj, j < i → raw[j]? = some rowj → rowQualifies rowj kws = false := by
  induction raw generalizing i with
  | nil => simp [find_header_row] at h
  | cons row rest ih =>
    by_cases hq : rowQualifies row kws
    · rw [show find_header_row (row :: rest) kws = some 0 by simp [find_header_row, hq]] at h
      injection h with h0
      subst h0
      refine ⟨row, by simp, hq, ?_⟩
      intro j rowj hj _
      exact absurd hj (Nat.not_lt_zero j)
    · rw [show find_header_row (row :: rest) kws
            = Option.map (· + 1) (find_header_row rest kws) by
          simp [find_header_row, hq]] at h
      rw [Option.map_eq_some'] at h
      obtain ⟨i0, hi0, rfl⟩ := h
      obtain ⟨row0, hget, hq0, hmin⟩ := ih i0 hi0
      refine ⟨row0, by simpa using hget, hq0, ?_⟩
      intro j rowj hj hgetj
      cases j with
      | zero =>
        simp only [List.getElem?_cons_zero, Option.some.injEq] at hgetj
        subst hgetj
        simpa using hq
      | succ j0 =>
        rw [List.getElem?_cons_succ] at hgetj
        exact hmin j0 rowj (by omega) hgetj

theorem find_header_row_none_spec (raw : List (List String)) (kws : List String)
    (h : find_header_row raw kws = none) :
    ∀ (j : Nat) (rowj : List String), raw[j]? = some rowj →
      rowQualifies rowj kws = false := by
  induction raw with
  | nil =>
    intro j rowj hg
    rw [List.getElem?_nil] at hg
    exact Option.noConfusion hg
  | cons row rest ih =>
    by_cases hq : rowQualifies row kws
    · simp [find_header_row, hq] at h
    · rw [show find_header_row (row :: rest) kws
            = Option.map (· + 1) (find_header_row rest kws) by
          simp [find_header_row, hq]] at h
      rw [Option.map_eq_none'] at h
      intro j rowj hg
      cases j with
      | zero =>
        simp only [List.getElem?_cons_zero, Option.some.injEq] at hg
        subst hg
        simpa using hq
      | succ j0 =>
        rw [List.getElem?_cons_succ] at hg
        exact ih h j0 rowj hg

theorem contains_iff_mem (l : List String) (a : String) :
    l.contains a = true ↔ a ∈ l := by
  simp [List.contains, List.elem_iff]

/-! Claim theorems. -/

/-- C1: For every joined reconciliation row, the status is exactly one of the
five kinds (Missing in Seller, Missing in Vendor, Matched, Within Threshold,
Amount Mismatch), assigned by the first matching rule in the priority order:
seller identifier absent, then vendor identifier absent, then difference equal
to zero, then difference at most the threshold, then otherwise Amount
Mismatch. -/
theorem get_status_five_priority (t : ℚ) (r : ReconRow) :
    get_status t r ∈ ["Missing in Seller Books", "Missing in Vendor Books",
      "Matched", "Within Threshold", "Amount Mismatch"] ∧
    (r.sellerNo = none → get_status t r = "Missing in Seller Books") ∧
    (r.sellerNo ≠ none → r.vendorNo = none →
      get_status t r = "Missing in Vendor Books") ∧
    (∀ d : ℚ, r.sellerNo ≠ none → r.vendorNo ≠ none →
      Amount_Difference r = some d → d = 0 → get_status t r = "Matched") ∧
    (∀ d : ℚ, r.sellerNo ≠ none → r.vendorNo ≠ none →
      Amount_Difference r = some d → d ≠ 0 → d ≤ t →
      get_status t r = "Within Threshold") ∧
    (∀ d : ℚ, r.sellerNo ≠ none → r.vendorNo ≠ none →
      Amount_Difference r = some d → d ≠ 0 → ¬ d ≤ t →
      get_status t r = "Amount Mismatch") := by
  obtain ⟨sn, sa, vn, va⟩ := r
  rcases sn with _ | s0
  · exact ⟨by simp [get_status], fun _ => by simp [get_status],
      fun h _ => absurd rfl h, fun d h => absurd rfl h,
      fun d h => absurd rfl h, fun d h => absurd rfl h⟩
  · rcases vn with _ | v0
    · exact ⟨by simp [get_status], by simp, fun _ _ => by simp [get_status],
        fun d _ h => absurd rfl h, fun d _ h => absurd rfl h,
        fun d _ h => absurd rfl h⟩
    · refine ⟨?_, by simp, by simp, ?_, ?_, ?_⟩
      · simp only [get_status]
        split_ifs <;> simp
      · intro d _ _ hd hd0
        subst hd0
        simp [get_status, nanEqZero, hd]
      · intro d _ _ hd hd0 hdt
        simp [get_status, nanEqZero, nanLe, hd, hd0, hdt]
      · intro d _ _ hd hd0 hdt
        simp [get_status, nanEqZero, nanLe, hd, hd0, hdt]

/-- Witness for C1: on a row present on both sides with equal amounts the
matched rule fires. -/
theorem get_status_five_priority_witness :
    get_status 1000 ⟨some "X", some 1000, some "X", some 1000⟩ = "Matched" :=
  (get_status_five_priority 1000
    ⟨some "X", some 1000, some "X", some 1000⟩).2.2.2.1 0
    (by simp) (by simp) (by norm_num [Amount_Difference, absQ]) rfl

/-- C3 counterexample: "purchase" does occur as a case-insensitive substring
of "Sales Purchase Return", yet the Format 1 purchase filter drops the row,
because the code compares the lowercased voucher type to "purchase" with
equality, not with a substring test. -/
theorem purchase_filter_substring_cex :
    strContains (strLower "Sales Purchase Return") "purchase" = true ∧
    vendor_process_format1 [⟨"Sales Purchase Return", "X", some 100⟩] = [] :=
  ⟨by decide, by decide⟩

/-- C3 amended: the purchase filter retains exactly the rows whose lowercased
voucher-type value equals "purchase"; a row with voucher type
"Sales Purchase Return" is dropped. -/
theorem vendor_format1_exact_purchase (rows : List VendorRow1) :
    (∀ r ∈ rows, strLower r.voucherType = "purchase" →
      (r.voucherNo, r.grossTotal.getD 0) ∈ vendor_process_format1 rows) ∧
    (∀ p ∈ vendor_process_format1 rows, ∃ r, r ∈ rows ∧
      strLower r.voucherType = "purchase" ∧
      p = (r.voucherNo, r.grossTotal.getD 0)) := by
  constructor
  · intro r hr hp
    exact List.mem_map_of_mem _ (List.mem_filter.mpr ⟨hr, by simp [hp]⟩)
  · intro p hp
    unfold vendor_process_format1 at hp
    rw [List.mem_map] at hp
    obtain ⟨r, hrf, rfl⟩ := hp
    rw [List.mem_filter] at hrf
    exact ⟨r, hrf.1, by simpa using hrf.2, rfl⟩

/-- Witness for C3 amended: a row typed exactly "Purchase" is retained. -/
theorem vendor_format1_exact_purchase_witness :
    ("P1", (10 : ℚ)) ∈ vendor_process_format1 [⟨"Purchase", "P1", some 10⟩] :=
  (vendor_format1_exact_purchase [⟨"Purchase", "P1", some 10⟩]).1
    ⟨"Purchase", "P1", some 10⟩ (by simp) (by decide)

/-- C4 counterexample: in direct-amount mode the rows with invoice "B" and
amounts 1000 and -250 yield two summary entries, not a single entry 750:
the direct-amount paths never group by invoice identifier. -/
theorem direct_amount_no_grouping_cex :
    seller_process [⟨"", "B", some 1000⟩, ⟨"", "B", some (-250)⟩] =
      [("B", 1000), ("B", -250)] ∧
    ¬ ("B", (750 : ℚ)) ∈
      seller_process [⟨"", "B", some 1000⟩, ⟨"", "B", some (-250)⟩] ∧
    ((seller_process [⟨"", "B", some 1000⟩, ⟨"", "B", some (-250)⟩]).filter
        (fun p => p.1 == "B")).length = 2 :=
  ⟨by decide, by decide, by decide⟩

/-- C4 amended: in direct-amount mode (the seller pipeline and vendor
Format 1) no grouping occurs: each retained row passes through as its own
summary entry with its coerced amount, so duplicate invoice identifiers
yield multiple entries. -/
theorem direct_amount_rowwise (srows : List SellerRow) (vrows : List VendorRow1) :
    (seller_process srows).length = srows.length ∧
    (∀ r ∈ srows, (r.no, r.amount.getD 0) ∈ seller_process srows) ∧
    (vendor_process_format1 vrows).length =
      (vrows.filter (fun r => strLower r.voucherType == "purchase")).length := by
  refine ⟨by simp [seller_process], ?_, by simp [vendor_process_format1]⟩
  intro r hr
  exact List.mem_map_of_mem _ hr

/-- Witness for C4 amended: the first duplicate "B" row passes through
unchanged. -/
theorem direct_amount_rowwise_witness :
    ("B", (1000 : ℚ)) ∈
      seller_process [⟨"", "B", some 1000⟩, ⟨"", "B", some (-250)⟩] :=
  (direct_amount_rowwise [⟨"", "B", some 1000⟩, ⟨"", "B", some (-250)⟩] []).2.1
    ⟨"", "B", some 1000⟩ (by simp)

/-- C5 counterexample: the seller pipeline retains a row whose voucher type
is "Sales", which is not a purchase voucher: the seller pipeline has no
purchase filter at all. -/
theorem seller_keeps_nonpurchase_cex :
    strLower "Sales" ≠ "purchase" ∧
    seller_process [⟨"Sales", "A", some 100⟩] = [("A", 100)] :=
  ⟨by decide, by decide⟩

/-- C5 amended: only the vendor pipeline filters to purchase-type vouchers
before producing its summary; the seller pipeline passes every row through
regardless of voucher type. -/
theorem only_vendor_filters_purchase (srows : List SellerRow)
    (vrows : List VendorRow1) (wrows : List VendorRow2) :
    (∀ r ∈ srows, (r.no, r.amount.getD 0) ∈ seller_process srows) ∧
    (∀ p ∈ vendor_process_format1 vrows, ∃ r, r ∈ vrows ∧
      strLower r.voucherType = "purchase" ∧
      p = (r.voucherNo, r.grossTotal.getD 0)) ∧
    (∀ p ∈ vendor_process_format2 wrows, ∃ r, r ∈ wrows ∧
      strLower r.vchType = "purchase" ∧ p.1 = r.vchNo) := by
  refine ⟨fun r hr => List.mem_map_of_mem _ hr, ?_, ?_⟩
  · intro p hp
    unfold vendor_process_format1 at hp
    rw [List.mem_map] at hp
    obtain ⟨r, hrf, rfl⟩ := hp
    rw [List.mem_filter] at hrf
    exact ⟨r, hrf.1, by simpa using hrf.2, rfl⟩
  · intro p hp
    simp only [vendor_process_format2] at hp
    rw [List.mem_map] at hp
    obtain ⟨k, hk, rfl⟩ := hp
    have hk2 : k ∈ (purchaseRows2 wrows).map (fun r => r.vchNo) :=
      dedupFirstAux_subset _ _ _ hk
    rw [List.mem_map] at hk2
    obtain ⟨r, hrf, rfl⟩ := hk2
    rw [purchaseRows2, List.mem_filter] at hrf
    exact ⟨r, hrf.1, by simpa using hrf.2, rfl⟩

/-- Witness for C5 amended: the "Sales" row passes through the seller
pipeline. -/
theorem only_vendor_filters_purchase_witness :
    ("A", (100 : ℚ)) ∈ seller_process [⟨"Sales", "A", some 100⟩] :=
  (only_vendor_filters_purchase [⟨"Sales", "A", some 100⟩] [] []).1
    ⟨"Sales", "A", some 100⟩ (by simp)

/-- C6 counterexample: with columns "Invoice No" and "Amount", the keyword
"no" does match the column "Invoice No" as a lowercased substring, so the
resolution mechanism the spec describes would succeed; the code instead
requires a column named exactly "No." and stops with a missing-column
error. -/
theorem column_resolution_cex :
    resolve_role_spec ["Invoice No", "Amount"] ["no"] = some "Invoice No" ∧
    seller_column_stage ["Invoice No", "Amount"] = .error .columnNotFound :=
  ⟨rfl, rfl⟩

/-- C6 amended: column roles are resolved by exact whitespace-stripped
column-name checks, not by keyword scanning: the seller file must contain
columns named exactly "No." and "Amount"; the vendor file is Format 1 when
"Voucher Type", "Voucher No." and "Gross Total" are all present, otherwise
Format 2 when "Vch Type", "Vch No.", "Debit" and "Credit" are all present,
otherwise processing fails with an unrecognized-format error. -/
theorem column_checks_exact (cols : List String) :
    (seller_column_stage cols = .ok () ↔
      "No." ∈ cols.map strTrim ∧ "Amount" ∈ cols.map strTrim) ∧
    (detect_vendor_format cols = .ok .format1 ↔
      "Voucher Type" ∈ cols.map strTrim ∧ "Voucher No." ∈ cols.map strTrim ∧
      "Gross Total" ∈ cols.map strTrim) ∧
    (detect_vendor_format cols = .error .unrecognizedFormat ↔
      ¬ ("Voucher Type" ∈ cols.map strTrim ∧ "Voucher No." ∈ cols.map strTrim ∧
          "Gross Total" ∈ cols.map strTrim) ∧
      ¬ ("Vch Type" ∈ cols.map strTrim ∧ "Vch No." ∈ cols.map strTrim ∧
          "Debit" ∈ cols.map strTrim ∧ "Credit" ∈ cols.map strTrim)) := by
  refine ⟨?_, ?_, ?_⟩
  · unfold seller_column_stage
    dsimp only
    split_ifs with h
    · rw [Bool.and_eq_true, contains_iff_mem, contains_iff_mem] at h
      exact iff_of_true rfl ⟨h.1, h.2⟩
    · rw [Bool.and_eq_true, contains_iff_mem, contains_iff_mem] at h
      exact iff_of_false (by simp) h
  · unfold detect_vendor_format
    dsimp only
    split_ifs with h1 h2
    · rw [Bool.and_eq_true, Bool.and_eq_true, contains_iff_mem, contains_iff_mem,
        contains_iff_mem] at h1
      exact iff_of_true rfl ⟨h1.1.1, h1.1.2, h1.2⟩
    · rw [Bool.and_eq_true, Bool.and_eq_true, contains_iff_mem, contains_iff_mem,
        contains_iff_mem] at h1
      exact iff_of_false (by simp)
        (fun hmem => h1 ⟨⟨hmem.1, hmem.2.1⟩, hmem.2.2⟩)
    · rw [Bool.and_eq_true, Bool.and_eq_true, contains_iff_mem, contains_iff_mem,
        contains_iff_mem] at h1
      exact iff_of_false (by simp)
        (fun hmem => h1 ⟨⟨hmem.1, hmem.2.1⟩, hmem.2.2⟩)
  · unfold detect_vendor_format
    dsimp only
    split_ifs with h1 h2
    · rw [Bool.and_eq_true, Bool.and_eq_true, contains_iff_mem, contains_iff_mem,
        contains_iff_mem] at h1
      exact iff_of_false (by simp)
        (fun hn => hn.1 ⟨h1.1.1, h1.1.2, h1.2⟩)
    · rw [Bool.and_eq_true, Bool.and_eq_true, Bool.and_eq_true, contains_iff_mem,
        contains_iff_mem, contains_iff_mem, contains_iff_mem] at h2
      exact iff_of_false (by simp)
        (fun hn => hn.2 ⟨h2.1.1.1, h2.1.1.2, h2.1.2, h2.2⟩)
    · rw [Bool.and_eq_true, Bool.and_eq_true, contains_iff_mem, contains_iff_mem,
        contains_iff_mem] at h1
      rw [Bool.and_eq_true, Bool.and_eq_true, Bool.and_eq_true, contains_iff_mem,
        contains_iff_mem, contains_iff_mem, contains_iff_mem] at h2
      refine iff_of_true rfl ⟨?_, ?_⟩
      · intro hn
        exact h1 ⟨⟨hn.1, hn.2.1⟩, hn.2.2⟩
      · intro hn
        exact h2 ⟨⟨⟨hn.1, hn.2.1⟩, hn.2.2.1⟩, hn.2.2.2⟩

/-- Witness for C6 amended: a file with exactly the columns "No." and
"Amount" passes the seller column check. -/
theorem column_checks_exact_witness :
    seller_column_stage ["No.", "Amount"] = .ok () :=
  (column_checks_exact ["No.", "Amount"]).1.mpr ⟨by decide, by decide⟩

/-- C7: Header detection scans the raw rows top-down and selects the first
row in which every required keyword appears as a case-insensitive substring
of at least one cell; for every input in which no row qualifies, processing
fails with a header-not-found error and produces no result. -/
theorem header_detection_first_or_fail (raw : List (List String)) (kws : List String) :
    (∀ i, find_header_row raw kws = some i →
      ∃ row, raw[i]? = some row ∧ rowQualifies row kws = true ∧
        ∀ (j : Nat) (rowj : List String), j < i → raw[j]? = some rowj →
          rowQualifies rowj kws = false) ∧
    (find_header_row raw kws = none →
      ∀ (j : Nat) (rowj : List String), raw[j]? = some rowj →
        rowQualifies rowj kws = false) ∧
    (find_header_row raw ["no", "amount"] = none →
      seller_header_stage raw = .error .headerNotFound) ∧
    (find_header_row raw ["voucher", "type"] = none →
      find_header_row raw ["vch", "type"] = none →
      vendor_header_stage raw = .error .headerNotFound) := by
  refine ⟨fun i h => find_header_row_some_spec raw kws i h,
    fun h => find_header_row_none_spec raw kws h, fun h => ?_, fun h1 h2 => ?_⟩
  · simp [seller_header_stage, h]
  · simp [vendor_header_stage, h1, h2]

/-- Witness for C7: a file whose rows never mention the keywords makes the
seller stage stop with a header-not-found error. -/
theorem header_detection_first_or_fail_witness :
    seller_header_stage [["hello"], ["world"]] = .error .headerNotFound :=
  (header_detection_first_or_fail [["hello"], ["world"]] ["no", "amount"]).2.2.1
    (by decide)

/-- C8: in debit/credit mode the per-invoice summary amount equals the sum
of that invoice's debit values minus the sum of its credit values; on the
rows (inv "A", debit 500, credit 0) and (inv "A", debit 0, credit 200) the
summary is a single entry ("A", 300). -/
theorem debit_credit_aggregation (rows : List VendorRow2) :
    (∀ p ∈ vendor_process_format2 rows,
      p.2 = debitSum (purchaseRows2 rows) p.1 -
        creditSum (purchaseRows2 rows) p.1) ∧
    vendor_process_format2
      [⟨"Purchase", "A", some 500, some 0⟩, ⟨"Purchase", "A", some 0, some 200⟩] =
      [("A", 300)] := by
  constructor
  · intro p hp
    simp only [vendor_process_format2] at hp
    rw [List.mem_map] at hp
    obtain ⟨k, _, rfl⟩ := hp
    rfl
  · norm_num +decide [vendor_process_format2, purchaseRows2, debitSum, creditSum,
      dedupFirstAux]

/-- Witness for C8 on the example rows: the summary value for "A" is the
debit sum minus the credit sum. -/
theorem debit_credit_aggregation_witness :
    (("A", (300 : ℚ)) : String × ℚ).2 =
      debitSum (purchaseRows2 [⟨"Purchase", "A", some 500, some 0⟩,
          ⟨"Purchase", "A", some 0, some 200⟩]) (("A", (300 : ℚ)) : String × ℚ).1 -
      creditSum (purchaseRows2 [⟨"Purchase", "A", some 500, some 0⟩,
          ⟨"Purchase", "A", some 0, some 200⟩]) (("A", (300 : ℚ)) : String × ℚ).1 :=
  (debit_credit_aggregation
    [⟨"Purchase", "A", some 500, some 0⟩, ⟨"Purchase", "A", some 0, some 200⟩]).1
    ("A", (300 : ℚ))
    (by norm_num +decide [vendor_process_format2, purchaseRows2, debitSum,
      creditSum, dedupFirstAux])

/-- C2: in a report produced with a non-negative threshold, a Matched row
has difference exactly 0, a Within Threshold row has a difference strictly
between 0 and the threshold inclusive, and an Amount Mismatch row has a
difference above the threshold. -/
theorem reconcile_status_bounds (s v : List (String × ℚ)) (t : ℚ) (ht : 0 ≤ t)
    (fr : FinalRow) (hfr : fr ∈ reconcile s v t) :
    (fr.status = "Matched" → fr.amountDifference = some 0) ∧
    (fr.status = "Within Threshold" →
      ∃ d, fr.amountDifference = some d ∧ 0 < d ∧ d ≤ t) ∧
    (fr.status = "Amount Mismatch" →
      ∃ d, fr.amountDifference = some d ∧ t < d) := by
  unfold reconcile at hfr
  rw [List.mem_map] at hfr
  obtain ⟨r, hr, rfl⟩ := hfr
  obtain ⟨hinv1, hinv2⟩ := mergeOuter_inv s v r hr
  rcases hsn : r.sellerNo with _ | s0
  · have hst : (classify t r).status = "Missing in Seller Books" := by
      simp [classify, get_status, hsn]
    refine ⟨?_, ?_, ?_⟩ <;> intro h <;> rw [hst] at h <;> exact absurd h (by decide)
  · rcases hvn : r.vendorNo with _ | v0
    · have hst : (classify t r).status = "Missing in Vendor Books" := by
        simp [classify, get_status, hsn, hvn]
      refine ⟨?_, ?_, ?_⟩ <;> intro h <;> rw [hst] at h <;> exact absurd h (by decide)
    · have hsa : ∃ a, r.sellerAmount = some a := by
        rcases ha : r.sellerAmount with _ | a
        · exact absurd (hinv1.mpr ha) (by simp [hsn])
        · exact ⟨a, rfl⟩
      have hva : ∃ b, r.vendorAmount = some b := by
        rcases hb : r.vendorAmount with _ | b
        · exact absurd (hinv2.mpr hb) (by simp [hvn])
        · exact ⟨b, rfl⟩
      obtain ⟨a, ha⟩ := hsa
      obtain ⟨b, hb⟩ := hva
      have hd : Amount_Difference r = some (absQ (a - b)) :=
        Amount_Difference_eq_some r a b ha hb
      have hdn : 0 ≤ absQ (a - b) := absQ_nonneg _
      by_cases h0 : absQ (a - b) = 0
      · have hst : (classify t r).status = "Matched" := by
          simp [classify, get_status, hsn, hvn, nanEqZero, hd, h0]
        refine ⟨?_, ?_, ?_⟩ <;> intro h
        · show Amount_Difference r = some 0
          rw [hd, h0]
        · rw [hst] at h
          exact absurd h (by decide)
        · rw [hst] at h
          exact absurd h (by decide)
      · by_cases hle : absQ (a - b) ≤ t
        · have hst : (classify t r).status = "Within Threshold" := by
            simp [classify, get_status, hsn, hvn, nanEqZero, nanLe, hd, h0, hle]
          refine ⟨?_, ?_, ?_⟩ <;> intro h
          · rw [hst] at h
            exact absurd h (by decide)
          · exact ⟨absQ (a - b), hd, lt_of_le_of_ne hdn (Ne.symm h0), hle⟩
          · rw [hst] at h
            exact absurd h (by decide)
        · have hst : (classify t r).status = "Amount Mismatch" := by
            simp [classify, get_status, hsn, hvn, nanEqZero, nanLe, hd, h0, hle]
          refine ⟨?_, ?_, ?_⟩ <;> intro h
          · rw [hst] at h
            exact absurd h (by decide)
          · rw [hst] at h
            exact absurd h (by decide)
          · exact ⟨absQ (a - b), hd, lt_of_not_le hle⟩

/-- Witness for C2: seller X at 1000, vendor X at 1300, threshold 1000 gives
a Within Threshold row whose difference lies in the half-open interval. -/
theorem reconcile_status_bounds_witness :
    ∃ d, (⟨some "X", some 1000, some "X", some 1300, some 300,
        "Within Threshold"⟩ : FinalRow).amountDifference = some d ∧
      0 < d ∧ d ≤ 1000 :=
  (reconcile_status_bounds [("X", 1000)] [("X", 1300)] 1000 (by norm_num) _
    (by norm_num +decide [reconcile, mergeOuter, classify, Amount_Difference,
      get_status, nanEqZero, nanLe, absQ])).2.1 rfl

/-- C9: the merge-and-classify step is deterministic and idempotent: two
runs on equal summaries and equal thresholds produce identical reports. -/
theorem reconcile_deterministic (s1 s2 v1 v2 : List (String × ℚ)) (t1 t2 : ℚ)
    (hs : s1 = s2) (hv : v1 = v2) (ht : t1 = t2) :
    reconcile s1 v1 t1 = reconcile s2 v2 t2 := by
  rw [hs, hv, ht]

/-- Witness for C9 at a concrete run. -/
theorem reconcile_deterministic_witness :
    reconcile [("X", 1)] [] 0 = reconcile [("X", 1)] [] 0 :=
  reconcile_deterministic [("X", 1)] [("X", 1)] [] [] 0 0 rfl rfl rfl

/-- The NaN-skipping column sum: the total over classified rows equals the
total over the rows whose both amounts are present. -/
theorem sum_getD_eq_filter_sum (t : ℚ) (l : List ReconRow) :
    total_difference (l.map (classify t)) =
      (((l.map (classify t)).filter
          (fun fr => fr.sellerAmount.isSome && fr.vendorAmount.isSome)).map
        (fun fr => fr.amountDifference.getD 0)).sum := by
  induction l with
  | nil => rfl
  | cons r rest ih =>
    rcases ha : r.sellerAmount with _ | a
    · have hdiff : Amount_Difference r = none :=
        Amount_Difference_eq_none r (Or.inl ha)
      simp only [List.map_cons, total_difference, List.sum_cons, List.filter_cons,
        classify, ha, hdiff] at *
      simpa using ih
    · rcases hb : r.vendorAmount with _ | b
      · have hdiff : Amount_Difference r = none :=
          Amount_Difference_eq_none r (Or.inr hb)
        simp only [List.map_cons, total_difference, List.sum_cons, List.filter_cons,
          classify, ha, hb, hdiff] at *
        simpa using ih
      · have hdiff : Amount_Difference r = some (absQ (a - b)) :=
          Amount_Difference_eq_some r a b ha hb
        simp only [List.map_cons, total_difference, List.sum_cons, List.filter_cons,
          classify, ha, hb, hdiff] at *
        simpa using ih

/-- C10: a row missing on one side of the outer join carries a null amount
for the absent side and a null difference, and the reported total
difference equals the sum of differences over only the rows where both
sides are present. -/
theorem missing_rows_and_total (s v : List (String × ℚ)) (t : ℚ) :
    (∀ fr ∈ reconcile s v t,
      (fr.status = "Missing in Seller Books" →
        fr.sellerAmount = none ∧ fr.amountDifference = none) ∧
      (fr.status = "Missing in Vendor Books" →
        fr.vendorAmount = none ∧ fr.amountDifference = none)) ∧
    total_difference (reconcile s v t) =
      (((reconcile s v t).filter
          (fun fr => fr.sellerAmount.isSome && fr.vendorAmount.isSome)).map
        (fun fr => fr.amountDifference.getD 0)).sum := by
  constructor
  · intro fr hfr
    unfold reconcile at hfr
    rw [List.mem_map] at hfr
    obtain ⟨r, hr, rfl⟩ := hfr
    obtain ⟨hinv1, hinv2⟩ := mergeOuter_inv s v r hr
    constructor
    · intro hst
      rcases hs2 : r.sellerNo with _ | s0
      · have hsa := hinv1.mp hs2
        exact ⟨hsa, Amount_Difference_eq_none r (Or.inl hsa)⟩
      · exfalso
        have hne : (classify t r).status ≠ "Missing in Seller Books" := by
          show get_status t r ≠ _
          unfold get_status
          rw [hs2]
          simp only [Option.isNone_some, Bool.false_eq_true, if_false]
          split_ifs <;> decide
        exact hne hst
    · intro hst
      rcases hv2 : r.vendorNo with _ | v0
      · have hva := hinv2.mp hv2
        exact ⟨hva, Amount_Difference_eq_none r (Or.inr hva)⟩
      · exfalso
        have hne : (classify t r).status ≠ "Missing in Vendor Books" := by
          show get_status t r ≠ _
          unfold get_status
          rw [hv2]
          simp only [Option.isNone_some, Bool.false_eq_true, if_false]
          split_ifs <;> decide
        exact hne hst
  · unfold reconcile
    exact sum_getD_eq_filter_sum t (mergeOuter s v)

/-- Witness for C10: with an empty seller summary, the vendor-only row has
null seller amount and null difference. -/
theorem missing_rows_and_total_witness :
    (⟨none, none, some "Y", some 500, none,
        "Missing in Seller Books"⟩ : FinalRow).sellerAmount = none ∧
    (⟨none, none, some "Y", some 500, none,
        "Missing in Seller Books"⟩ : FinalRow).amountDifference = none :=
  ((missing_rows_and_total [] [("Y", 500)] 0).1 _
    (by norm_num +decide [reconcile, mergeOuter, classify, Amount_Difference,
      get_status])).1 rfl
